import Mathlib

/-!
Shallow embedding of the fastapi-task-manager repository
(src/models.py, src/crud.py, src/main.py).

Modelling conventions:
* `datetime` values are modelled as `Nat` timestamps; `datetime.now()` is an
  explicit `now : Nat` argument threaded into every operation that reads the
  clock.  Python `datetime` objects are always truthy, so `if v and ...` on an
  `Optional[datetime]` is modelled as a match on `Option Nat` being `some`.
* Python `str.strip()` is modelled by `pyStrip` below (drop leading and
  trailing whitespace characters).
* The SQLite store is a `Store`: the list of rows of the single `task` table
  in insertion order plus the next primary key the database will assign.
* `TaskUpdate` fields are `Option (Option _)`: the outer `Option` records
  whether the field was supplied at all (pydantic `__fields_set__`, read by
  `task_update.dict(exclude_unset=True)`), the inner one holds the value,
  which may itself be an explicit JSON `null` (`none`).
* In `models.py`, `Task.title`, `Task.status`, `Task.priority` and
  `Task.created_at` are declared without `Optional`, so SQLModel emits
  NOT NULL columns for them, while `description`, `updated_at`, `due_date`
  and `assigned_to` are `Optional` and hence nullable.  A `session.commit()`
  that writes `None` into a NOT NULL column raises `IntegrityError` and the
  transaction is rolled back; `update_task` below models this commit-time
  check explicitly (`taskNotNullOk`).  Stored `title`/`status`/`priority`
  are therefore `Option`-typed in the row model, because `setattr` can place
  `None` there in memory even though the database refuses to persist it.
-/

namespace TaskManager

/-- The whitespace characters removed by Python `str.strip()` (ASCII set:
space, tab, newline, carriage return, vertical tab, form feed). -/
def isPySpace (c : Char) : Bool :=
  c = ' ' || c = '\t' || c = '\n' || c = '\r' || c = Char.ofNat 11 || c = Char.ofNat 12

/-- Python `str.strip()` on the underlying character list: drop leading
whitespace, then drop trailing whitespace. -/
def stripChars (l : List Char) : List Char :=
  ((l.dropWhile isPySpace).reverse.dropWhile isPySpace).reverse

/-- Python `str.strip()` on strings. -/
def pyStrip (s : String) : String :=
  ⟨stripChars s.data⟩

/-- models.py `TaskStatus` enumeration. -/
inductive TaskStatus where
  | pending
  | in_progress
  | completed
  | cancelled
deriving DecidableEq, Repr, BEq

/-- models.py `TaskPriority` enumeration. -/
inductive TaskPriority where
  | low
  | medium
  | high
  | urgent
deriving DecidableEq, Repr, BEq

/-- models.py `Task` (the table row).  `title`, `status` and `priority` are
`Option`-typed because a Python `setattr` can put `None` in them in memory;
the database schema nevertheless marks them NOT NULL (see the header note),
which `update_task` checks at commit time. -/
structure Task where
  id : Nat
  title : Option String
  description : Option String
  status : Option TaskStatus
  priority : Option TaskPriority
  created_at : Nat
  updated_at : Option Nat
  due_date : Option Nat
  assigned_to : Option String
deriving DecidableEq, Repr

/-- Raw creation payload before pydantic validation: `status` and `priority`
are `none` when the client omitted them, in which case the `TaskCreate`
field defaults (`pending`, `medium`) apply. -/
structure TaskCreateInput where
  title : String
  description : Option String := none
  status : Option TaskStatus := none
  priority : Option TaskPriority := none
  due_date : Option Nat := none
  assigned_to : Option String := none
deriving DecidableEq, Repr

/-- models.py `TaskCreate` after validation: title trimmed and checked,
defaults applied. -/
structure TaskCreate where
  title : String
  description : Option String
  status : TaskStatus
  priority : TaskPriority
  due_date : Option Nat
  assigned_to : Option String
deriving DecidableEq, Repr

/-- models.py `TaskUpdate`.  Outer `Option`: was the field supplied at all;
inner value: the supplied value, possibly an explicit `null`. -/
structure TaskUpdate where
  title : Option (Option String) := none
  description : Option (Option String) := none
  status : Option (Option TaskStatus) := none
  priority : Option (Option TaskPriority) := none
  due_date : Option (Option Nat) := none
  assigned_to : Option (Option String) := none
deriving DecidableEq, Repr

/-- models.py `TaskCreate.validate_title`: reject empty or all-whitespace,
otherwise return the stripped title. -/
def TaskCreate_validate_title (v : String) : Except String String :=
  if v = "" ∨ pyStrip v = "" then
    .error "Title cannot be empty or whitespace only"
  else
    .ok (pyStrip v)

/-- models.py `TaskCreate.validate_due_date`: `if v and v <= datetime.now()`
raise, else return `v` (a `datetime` is always truthy, so `if v` tests
presence). -/
def TaskCreate_validate_due_date (now : Nat) (v : Option Nat) : Except String (Option Nat) :=
  match v with
  | some d => if d ≤ now then .error "Due date must be in the future" else .ok (some d)
  | none => .ok none

/-- The custom-validator stage of pydantic validation of a `TaskCreate`
payload: both field validators run independently (the payload is rejected
when either fails) and the `status`/`priority` field defaults apply when
those fields are absent.  (`validateCreateFull` below also runs the
`max_length` field constraints of that stage.) -/
def validateCreate (now : Nat) (i : TaskCreateInput) : Except String TaskCreate :=
  match TaskCreate_validate_title i.title, TaskCreate_validate_due_date now i.due_date with
  | .ok t, .ok d =>
      .ok { title := t
            description := i.description
            status := i.status.getD .pending
            priority := i.priority.getD .medium
            due_date := d
            assigned_to := i.assigned_to }
  | .error e, _ => .error e
  | _, .error e => .error e

/-- models.py `TaskUpdate.validate_title`: skipped (returns `v`) when the
supplied value is `None`; otherwise reject empty or all-whitespace and
return the stripped title. -/
def TaskUpdate_validate_title (v : Option String) : Except String (Option String) :=
  match v with
  | some w =>
      if w = "" ∨ pyStrip w = "" then
        .error "Title cannot be empty or whitespace only"
      else
        .ok (some (pyStrip w))
  | none => .ok none

/-- models.py `TaskUpdate.validate_due_date`: identical to the create-side
check; a supplied `None` is skipped because `if v` is false. -/
def TaskUpdate_validate_due_date (now : Nat) (v : Option Nat) : Except String (Option Nat) :=
  match v with
  | some d => if d ≤ now then .error "Due date must be in the future" else .ok (some d)
  | none => .ok none

/-- The title validator as applied to the `title` slot of a `TaskUpdate`
payload: it runs only when the field was supplied (outer `some`); an
unsupplied field keeps its unset marker. -/
def validateUpdateTitleField (u : TaskUpdate) : Except String (Option (Option String)) :=
  match u.title with
  | some v => (TaskUpdate_validate_title v).map some
  | none => .ok none

/-- The due-date validator as applied to the `due_date` slot of a
`TaskUpdate` payload: it runs only when the field was supplied. -/
def validateUpdateDueField (now : Nat) (u : TaskUpdate) : Except String (Option (Option Nat)) :=
  match u.due_date with
  | some v => (TaskUpdate_validate_due_date now v).map some
  | none => .ok none

/-- The custom-validator stage of pydantic validation of a `TaskUpdate`
payload: the two field validators run independently on the supplied slots;
the other four fields have no custom validators.  (`validateUpdateFull`
below also runs the `max_length` field constraints of that stage.) -/
def validateUpdate (now : Nat) (u : TaskUpdate) : Except String TaskUpdate :=
  match validateUpdateTitleField u, validateUpdateDueField now u with
  | .ok t, .ok d => .ok { u with title := t, due_date := d }
  | .error e, _ => .error e
  | _, .error e => .error e

/-- Does an optional string field value exceed a pydantic `max_length`
bound?  An absent (`None`) value is never checked. -/
def tooLong (v : Option String) (n : Nat) : Bool :=
  match v with
  | some w => n < w.length
  | none => false

/-- The full pydantic validation pipeline for a `TaskCreate` payload.  In
pydantic v1 the field constraints (`max_length=200` on `title`,
`max_length=1000` on `description`, `max_length=100` on `assigned_to`) run
before the custom `@validator`s, and a field that fails its constraint does
not reach its custom validator. -/
def validateCreateFull (now : Nat) (i : TaskCreateInput) : Except String TaskCreate :=
  if tooLong (some i.title) 200 then
    .error "ensure this value has at most 200 characters"
  else if tooLong i.description 1000 then
    .error "ensure this value has at most 1000 characters"
  else if tooLong i.assigned_to 100 then
    .error "ensure this value has at most 100 characters"
  else
    validateCreate now i

/-- The full pydantic validation pipeline for a `TaskUpdate` payload: the
same `max_length` constraints on the supplied non-null string slots
(`title` 200, `description` 1000, `assigned_to` 100) run before the custom
validators; unsupplied or explicitly-null slots are not checked. -/
def validateUpdateFull (now : Nat) (u : TaskUpdate) : Except String TaskUpdate :=
  if tooLong (u.title.getD none) 200 then
    .error "ensure this value has at most 200 characters"
  else if tooLong (u.description.getD none) 1000 then
    .error "ensure this value has at most 1000 characters"
  else if tooLong (u.assigned_to.getD none) 100 then
    .error "ensure this value has at most 100 characters"
  else
    validateUpdate now u

/-- The SQLite database: rows of the `task` table in insertion order, plus
the next primary key value. -/
structure Store where
  tasks : List Task := []
  next_id : Nat := 1
deriving DecidableEq, Repr

/-- crud.py `create_task`: `Task.model_validate(task)` copies the validated
fields, `created_at` gets its `default_factory=datetime.now`, `updated_at`
its default `None`; commit assigns the next primary key. -/
def create_task (s : Store) (now : Nat) (t : TaskCreate) : Task × Store :=
  let db_task : Task :=
    { id := s.next_id
      title := some t.title
      description := t.description
      status := some t.status
      priority := some t.priority
      created_at := now
      updated_at := none
      due_date := t.due_date
      assigned_to := t.assigned_to }
  (db_task, { tasks := s.tasks ++ [db_task], next_id := s.next_id + 1 })

/-- crud.py `get_task`: `select(Task).where(Task.id == task_id)` then
`.first()`. -/
def get_task (s : Store) (task_id : Nat) : Option Task :=
  s.tasks.find? fun t => t.id == task_id

/-- The WHERE clauses of crud.py `get_tasks`: `if status:` / `if priority:`
add an exact-match filter (enum members are truthy strings, so the test is
presence).  A row whose stored column is NULL matches no filter value. -/
def matchesFilters (status : Option TaskStatus) (priority : Option TaskPriority)
    (t : Task) : Bool :=
  (match status with
   | some st => t.status == some st
   | none => true) &&
  (match priority with
   | some p => t.priority == some p
   | none => true)

/-- crud.py `get_tasks`: the page is the filtered rows after
`.offset(skip).limit(limit)`; the total comes from the separate
`count_statement` with the same filters, i.e. the number of matching rows
before pagination. -/
def get_tasks (s : Store) (skip : Nat) (limit : Nat)
    (status : Option TaskStatus) (priority : Option TaskPriority) :
    List Task × Nat :=
  (((s.tasks.filter (matchesFilters status priority)).drop skip).take limit,
   (s.tasks.filter (matchesFilters status priority)).length)

/-- crud.py `get_tasks_by_status`: delegates to `get_tasks`. -/
def get_tasks_by_status (s : Store) (status : TaskStatus) (skip : Nat) (limit : Nat) :
    List Task × Nat :=
  get_tasks s skip limit (some status) none

/-- crud.py `get_tasks_by_priority`: delegates to `get_tasks`. -/
def get_tasks_by_priority (s : Store) (priority : TaskPriority) (skip : Nat) (limit : Nat) :
    List Task × Nat :=
  get_tasks s skip limit none (some priority)

/-- Does a task require no field supplied? `task_update.dict(exclude_unset=True)`
is empty exactly when no field of the payload was set. -/
def TaskUpdate.isEmptyData (u : TaskUpdate) : Bool :=
  u.title.isNone && u.description.isNone && u.status.isNone &&
  u.priority.isNone && u.due_date.isNone && u.assigned_to.isNone

/-- The `for field, value in update_data.items(): setattr(db_task, field, value)`
loop plus `update_data["updated_at"] = datetime.now()`: every supplied field
(including an explicit `null`) overwrites the row field; unsupplied fields
are untouched; `updated_at` is set to now. -/
def applyUpdateData (t : Task) (now : Nat) (u : TaskUpdate) : Task :=
  { t with
    title := u.title.getD t.title
    description := u.description.getD t.description
    status := u.status.getD t.status
    priority := u.priority.getD t.priority
    due_date := u.due_date.getD t.due_date
    assigned_to := u.assigned_to.getD t.assigned_to
    updated_at := some now }

/-- The NOT NULL columns of the `task` table that an update can touch:
`title`, `status`, `priority` are declared without `Optional` in models.py,
so SQLModel marks their columns NOT NULL; the commit fails if any of them
holds NULL. -/
def taskNotNullOk (t : Task) : Bool :=
  t.title.isSome && t.status.isSome && t.priority.isSome

/-- Replace the row with the given primary key (primary keys are unique, so
at most one row changes). -/
def replaceTask (tasks : List Task) (task_id : Nat) (t' : Task) : List Task :=
  tasks.map fun t => if t.id == task_id then t' else t

/-- crud.py `update_task`: absent id gives `None` back; an empty
`update_data` dict skips the mutation and the commit entirely; otherwise the
supplied fields and `updated_at` are written and committed — the commit
raising `IntegrityError` (modelled as `.error`, store unchanged by rollback)
when a NOT NULL column was set to `None`. -/
def update_task (s : Store) (now : Nat) (task_id : Nat) (u : TaskUpdate) :
    Except String (Option Task) × Store :=
  match get_task s task_id with
  | none => (.ok none, s)
  | some db_task =>
      if u.isEmptyData then
        (.ok (some db_task), s)
      else
        let t' := applyUpdateData db_task now u
        if taskNotNullOk t' then
          (.ok (some t'), { s with tasks := replaceTask s.tasks task_id t' })
        else
          (.error "IntegrityError: NOT NULL constraint failed", s)

/-- crud.py `delete_task`: absent id gives `False` and leaves the store
alone; otherwise the row is removed and `True` returned. -/
def delete_task (s : Store) (task_id : Nat) : Bool × Store :=
  match get_task s task_id with
  | none => (false, s)
  | some _ => (true, { s with tasks := s.tasks.filter fun t => !(t.id == task_id) })

/-- Outcome of a route handler: a value or an HTTP error response. -/
inductive HttpResult (α : Type) where
  | ok (value : α)
  | httpError (code : Nat) (detail : String)
deriving DecidableEq, Repr

namespace api

/-- main.py `read_task`: 404 when `crud.get_task` returns `None`. -/
def read_task (s : Store) (task_id : Nat) : HttpResult Task :=
  match get_task s task_id with
  | none => .httpError 404 "Task not found"
  | some t => .ok t

/-- main.py `update_task`: 404 when `crud.update_task` returns `None`; an
uncaught store exception surfaces as a 500. -/
def update_task (s : Store) (now : Nat) (task_id : Nat) (u : TaskUpdate) :
    HttpResult Task × Store :=
  match TaskManager.update_task s now task_id u with
  | (.ok none, s') => (.httpError 404 "Task not found", s')
  | (.ok (some t), s') => (.ok t, s')
  | (.error e, s') => (.httpError 500 e, s')

/-- main.py `delete_task`: 404 when `crud.delete_task` returns `False`. -/
def delete_task (s : Store) (task_id : Nat) : HttpResult String × Store :=
  match TaskManager.delete_task s task_id with
  | (false, s') => (.httpError 404 "Task not found", s')
  | (true, s') => (.ok "Task deleted successfully", s')

end api

/-- One store-level operation as reachable through the API: the raw payloads
go through pydantic validation first, and a validation failure (422) leaves
the store untouched. -/
inductive Op where
  | createOp (now : Nat) (i : TaskCreateInput)
  | updateOp (now : Nat) (task_id : Nat) (u : TaskUpdate)
  | deleteOp (task_id : Nat)
deriving DecidableEq, Repr

/-- Effect of one operation on the store. -/
def applyOp (s : Store) : Op → Store
  | .createOp now i =>
      match validateCreate now i with
      | .ok c => (create_task s now c).2
      | .error _ => s
  | .updateOp now task_id u =>
      match validateUpdate now u with
      | .ok u' => (update_task s now task_id u').2
      | .error _ => s
  | .deleteOp task_id => (delete_task s task_id).2

/-- Effect of a sequence of operations on the store. -/
def runOps (s : Store) : List Op → Store
  | [] => s
  | op :: ops => runOps (applyOp s op) ops

/-- The per-row invariant of claim C1: the title is present, non-empty and
not whitespace-only after trimming, and status and priority hold one of
their enumerated values (i.e. are not NULL). -/
def taskWF (t : Task) : Bool :=
  (match t.title with
   | some v => !(v == "") && !(pyStrip v == "")
   | none => false) &&
  t.status.isSome && t.priority.isSome

/-- Every persisted row satisfies the invariant. -/
def storeWF (s : Store) : Bool :=
  s.tasks.all taskWF

/-! Helper lemmas about `pyStrip`. -/

lemma dropWhile_head_false {α : Type} (p : α → Bool) (l : List α) (x : α) (xs : List α)
    (h : l.dropWhile p = x :: xs) : p x = false := by
  induction l with
  | nil => simp [List.dropWhile] at h
  | cons a l ih =>
      rw [List.dropWhile_cons] at h
      split at h
      · exact ih h
      · cases h; simp_all

lemma stripChars_eq_nil_iff (l : List Char) :
    stripChars l = [] ↔ ∀ c ∈ l, isPySpace c := by
  unfold stripChars
  rw [List.reverse_eq_nil_iff, List.dropWhile_eq_nil_iff]
  constructor
  · intro h
    have h1 : ∀ c ∈ l.dropWhile isPySpace, isPySpace c := by
      intro c hc
      exact h c (List.mem_reverse.mpr hc)
    have h2 : l.dropWhile isPySpace = [] := by
      cases hd : l.dropWhile isPySpace with
      | nil => rfl
      | cons x xs =>
          have hx : isPySpace x = false := dropWhile_head_false _ _ _ _ hd
          have hx' : isPySpace x = true := h1 x (by rw [hd]; exact List.mem_cons_self x xs)
          simp [hx] at hx'
    exact (List.dropWhile_eq_nil_iff).mp h2
  · intro h c hc
    have h2 : l.dropWhile isPySpace = [] := (List.dropWhile_eq_nil_iff).mpr h
    rw [h2] at hc
    simp at hc

lemma stripChars_stripChars_ne_nil (l : List Char) (h : stripChars l ≠ []) :
    stripChars (stripChars l) ≠ [] := by
  intro hcon
  have hall : ∀ c ∈ stripChars l, isPySpace c := (stripChars_eq_nil_iff _).mp hcon
  cases hr : ((l.dropWhile isPySpace).reverse.dropWhile isPySpace) with
  | nil => exact h (by unfold stripChars; rw [hr]; rfl)
  | cons x xs =>
      have hx : isPySpace x = false := dropWhile_head_false _ _ _ _ hr
      have hmem : x ∈ stripChars l := by
        unfold stripChars
        rw [hr]
        exact List.mem_reverse.mpr (List.mem_cons_self x xs)
      have := hall x hmem
      simp [hx] at this

lemma pyStrip_eq_empty_iff (s : String) :
    pyStrip s = "" ↔ stripChars s.data = [] := by
  unfold pyStrip
  rw [String.ext_iff]

lemma pyStrip_pyStrip_ne_empty (s : String) (h : pyStrip s ≠ "") :
    pyStrip (pyStrip s) ≠ "" := by
  intro hcon
  have h1 : stripChars s.data ≠ [] := fun he => h ((pyStrip_eq_empty_iff s).mpr he)
  have h2 : stripChars (stripChars s.data) = [] := (pyStrip_eq_empty_iff (pyStrip s)).mp hcon
  exact stripChars_stripChars_ne_nil _ h1 h2

/-! Helper lemmas about `find?` and `replaceTask`. -/

lemma replaceTask_cons (a : Task) (l : List Task) (task_id : Nat) (t' : Task) :
    replaceTask (a :: l) task_id t' =
      (if a.id == task_id then t' else a) :: replaceTask l task_id t' := rfl

lemma find?_replaceTask_self (tasks : List Task) (task_id : Nat) (t t' : Task)
    (h : tasks.find? (fun x => x.id == task_id) = some t) (hid : t'.id = task_id) :
    (replaceTask tasks task_id t').find? (fun x => x.id == task_id) = some t' := by
  induction tasks with
  | nil => simp [List.find?] at h
  | cons a l ih =>
      rw [replaceTask_cons]
      by_cases hc : a.id = task_id
      · have hpa : (a.id == task_id) = true := by simp [hc]
        rw [hpa]
        simp only [if_true]
        exact List.find?_cons_of_pos _ (by simp [hid])
      · have hpa : (a.id == task_id) = false := by simp [hc]
        rw [hpa]
        simp only [Bool.false_eq_true, if_false]
        rw [List.find?_cons_of_neg _ (by simp [hc])] at h
        rw [List.find?_cons_of_neg _ (by simp [hc])]
        exact ih h

lemma find?_replaceTask_ne (tasks : List Task) (task_id j : Nat) (t' : Task)
    (hid : t'.id = task_id) (hne : j ≠ task_id) :
    (replaceTask tasks task_id t').find? (fun x => x.id == j) =
      tasks.find? (fun x => x.id == j) := by
  induction tasks with
  | nil => rfl
  | cons a l ih =>
      rw [replaceTask_cons]
      by_cases hc : a.id = task_id
      · have hpa : (a.id == task_id) = true := by simp [hc]
        rw [hpa]
        simp only [if_true]
        rw [List.find?_cons_of_neg _ (by simp [hid]; exact Ne.symm hne)]
        rw [List.find?_cons_of_neg _ (by simp [hc]; exact Ne.symm hne)]
        exact ih
      · have hpa : (a.id == task_id) = false := by simp [hc]
        rw [hpa]
        simp only [Bool.false_eq_true, if_false]
        by_cases hj : a.id = j
        · rw [List.find?_cons_of_pos _ (by simp [hj]), List.find?_cons_of_pos _ (by simp [hj])]
        · rw [List.find?_cons_of_neg _ (by simp [hj]), List.find?_cons_of_neg _ (by simp [hj])]
          exact ih

lemma get_task_id_eq (s : Store) (task_id : Nat) (t : Task)
    (h : get_task s task_id = some t) : t.id = task_id := by
  have := List.find?_some h
  simpa using this

lemma get_task_mem (s : Store) (task_id : Nat) (t : Task)
    (h : get_task s task_id = some t) : t ∈ s.tasks :=
  List.mem_of_find?_eq_some h

/-! Inversion lemmas for the pydantic validators. -/

lemma TaskCreate_validate_title_ok (v r : String)
    (h : TaskCreate_validate_title v = .ok r) :
    v ≠ "" ∧ pyStrip v ≠ "" ∧ r = pyStrip v := by
  unfold TaskCreate_validate_title at h
  by_cases hc : v = "" ∨ pyStrip v = ""
  · rw [if_pos hc] at h
    exact absurd h (by simp)
  · rw [if_neg hc] at h
    cases h
    push_neg at hc
    exact ⟨hc.1, hc.2, rfl⟩

lemma TaskCreate_validate_due_date_ok (now : Nat) (v r : Option Nat)
    (h : TaskCreate_validate_due_date now v = .ok r) :
    r = v ∧ ∀ d, v = some d → now < d := by
  cases v with
  | none =>
      simp only [TaskCreate_validate_due_date] at h
      cases h
      exact ⟨rfl, by simp⟩
  | some d =>
      simp only [TaskCreate_validate_due_date] at h
      by_cases hle : d ≤ now
      · rw [if_pos hle] at h
        exact absurd h (by simp)
      · rw [if_neg hle] at h
        cases h
        exact ⟨rfl, fun d' hd' => by cases hd'; exact Nat.lt_of_not_le hle⟩

lemma validateCreate_ok (now : Nat) (i : TaskCreateInput) (c : TaskCreate)
    (h : validateCreate now i = .ok c) :
    i.title ≠ "" ∧ pyStrip i.title ≠ "" ∧ c.title = pyStrip i.title ∧
    c.description = i.description ∧ c.status = i.status.getD .pending ∧
    c.priority = i.priority.getD .medium ∧ c.due_date = i.due_date ∧
    c.assigned_to = i.assigned_to ∧ ∀ d, i.due_date = some d → now < d := by
  unfold validateCreate at h
  cases ht : TaskCreate_validate_title i.title with
  | error e => rw [ht] at h; simp at h
  | ok t =>
      cases hd : TaskCreate_validate_due_date now i.due_date with
      | error e => rw [ht, hd] at h; simp at h
      | ok d =>
          rw [ht, hd] at h
          cases h
          obtain ⟨h1, h2, h3⟩ := TaskCreate_validate_title_ok _ _ ht
          obtain ⟨h4, h5⟩ := TaskCreate_validate_due_date_ok _ _ _ hd
          exact ⟨h1, h2, h3, rfl, rfl, rfl, h4, rfl, h5⟩

lemma TaskUpdate_validate_title_ok (v r : Option String)
    (h : TaskUpdate_validate_title v = .ok r) :
    r = v.map pyStrip ∧ ∀ w, v = some w → w ≠ "" ∧ pyStrip w ≠ "" := by
  cases v with
  | none =>
      simp only [TaskUpdate_validate_title] at h
      cases h
      exact ⟨rfl, by simp⟩
  | some w =>
      simp only [TaskUpdate_validate_title] at h
      by_cases hc : w = "" ∨ pyStrip w = ""
      · rw [if_pos hc] at h
        exact absurd h (by simp)
      · rw [if_neg hc] at h
        cases h
        push_neg at hc
        exact ⟨rfl, fun w' hw' => by cases hw'; exact hc⟩

lemma TaskUpdate_validate_due_date_ok (now : Nat) (v r : Option Nat)
    (h : TaskUpdate_validate_due_date now v = .ok r) :
    r = v ∧ ∀ d, v = some d → now < d := by
  cases v with
  | none =>
      simp only [TaskUpdate_validate_due_date] at h
      cases h
      exact ⟨rfl, by simp⟩
  | some d =>
      simp only [TaskUpdate_validate_due_date] at h
      by_cases hle : d ≤ now
      · rw [if_pos hle] at h
        exact absurd h (by simp)
      · rw [if_neg hle] at h
        cases h
        exact ⟨rfl, fun d' hd' => by cases hd'; exact Nat.lt_of_not_le hle⟩

lemma validateUpdateTitleField_ok (u : TaskUpdate) (r : Option (Option String))
    (h : validateUpdateTitleField u = .ok r) :
    r = Option.map (Option.map pyStrip) u.title ∧
    ∀ w, u.title = some (some w) → w ≠ "" ∧ pyStrip w ≠ "" := by
  cases htt : u.title with
  | none =>
      simp only [validateUpdateTitleField, htt] at h
      cases h
      exact ⟨rfl, by simp⟩
  | some v =>
      simp only [validateUpdateTitleField, htt] at h
      cases hv : TaskUpdate_validate_title v with
      | error e => rw [hv] at h; simp [Except.map] at h
      | ok r' =>
          rw [hv] at h
          simp only [Except.map, Except.ok.injEq] at h
          cases h
          obtain ⟨h1, h2⟩ := TaskUpdate_validate_title_ok _ _ hv
          exact ⟨by rw [h1]; rfl, fun w hw => by cases hw; exact h2 w rfl⟩

lemma validateUpdateDueField_ok (now : Nat) (u : TaskUpdate) (r : Option (Option Nat))
    (h : validateUpdateDueField now u = .ok r) :
    r = u.due_date ∧ ∀ d, u.due_date = some (some d) → now < d := by
  cases hdd : u.due_date with
  | none =>
      simp only [validateUpdateDueField, hdd] at h
      cases h
      exact ⟨rfl, by simp⟩
  | some v =>
      simp only [validateUpdateDueField, hdd] at h
      cases hv : TaskUpdate_validate_due_date now v with
      | error e => rw [hv] at h; simp [Except.map] at h
      | ok r' =>
          rw [hv] at h
          simp only [Except.map, Except.ok.injEq] at h
          cases h
          obtain ⟨h1, h2⟩ := TaskUpdate_validate_due_date_ok _ _ _ hv
          exact ⟨by rw [h1], fun d hd => by cases hd; exact h2 d rfl⟩

lemma validateUpdate_ok (now : Nat) (u u' : TaskUpdate)
    (h : validateUpdate now u = .ok u') :
    u'.title = Option.map (Option.map pyStrip) u.title ∧
    u'.description = u.description ∧ u'.status = u.status ∧
    u'.priority = u.priority ∧ u'.due_date = u.due_date ∧
    u'.assigned_to = u.assigned_to ∧
    (∀ v, u.title = some (some v) → v ≠ "" ∧ pyStrip v ≠ "") ∧
    (∀ d, u.due_date = some (some d) → now < d) := by
  unfold validateUpdate at h
  cases ht : validateUpdateTitleField u with
  | error e => rw [ht] at h; simp at h
  | ok t =>
      cases hd : validateUpdateDueField now u with
      | error e => rw [ht, hd] at h; simp at h
      | ok d =>
          rw [ht, hd] at h
          cases h
          obtain ⟨h1, h2⟩ := validateUpdateTitleField_ok _ _ ht
          obtain ⟨h3, h4⟩ := validateUpdateDueField_ok _ _ _ hd
          exact ⟨h1, rfl, rfl, rfl, h3, rfl, h2, h4⟩

/-! The C1 invariant is preserved by every operation. -/

lemma taskWF_of (t : Task) (v : String) (h1 : t.title = some v) (h2 : v ≠ "")
    (h3 : pyStrip v ≠ "") (h4 : t.status.isSome) (h5 : t.priority.isSome) :
    taskWF t = true := by
  simp [taskWF, h1, h2, h3, h4, h5]

lemma taskWF_elim (t : Task) (h : taskWF t = true) :
    ∃ v, t.title = some v ∧ v ≠ "" ∧ pyStrip v ≠ "" ∧
      t.status.isSome ∧ t.priority.isSome := by
  cases htt : t.title with
  | none => simp [taskWF, htt] at h
  | some v =>
      simp only [taskWF, htt, Bool.and_eq_true, Bool.not_eq_true', beq_eq_false_iff_ne] at h
      exact ⟨v, rfl, h.1.1.1, h.1.1.2, h.1.2, h.2⟩

lemma storeWF_mem (s : Store) (h : storeWF s = true) (t : Task) (ht : t ∈ s.tasks) :
    taskWF t = true :=
  List.all_eq_true.mp h t ht

lemma applyOp_WF (s : Store) (op : Op) (h : storeWF s = true) :
    storeWF (applyOp s op) = true := by
  cases op with
  | createOp now i =>
      simp only [applyOp]
      cases hval : validateCreate now i with
      | error e => exact h
      | ok c =>
          obtain ⟨h1, h2, h3, -⟩ := validateCreate_ok now i c hval
          simp only [create_task, storeWF, List.all_append, Bool.and_eq_true]
          refine ⟨h, ?_⟩
          simp only [List.all_cons, List.all_nil, Bool.and_true]
          exact taskWF_of _ c.title rfl (by rw [h3]; exact h2)
            (by rw [h3]; exact pyStrip_pyStrip_ne_empty _ h2) rfl rfl
  | updateOp now task_id u =>
      simp only [applyOp]
      cases hval : validateUpdate now u with
      | error e => exact h
      | ok u' =>
          obtain ⟨ht, hdesc, hst, hpr, hdu, has, htv, hdv⟩ := validateUpdate_ok now u u' hval
          unfold update_task
          cases hget : get_task s task_id with
          | none => exact h
          | some db =>
              by_cases hemp : u'.isEmptyData = true
              · simp only [hemp, if_true]
                exact h
              · simp only [hemp, Bool.false_eq_true, if_false]
                by_cases hnn : taskNotNullOk (applyUpdateData db now u') = true
                · simp only [hnn, if_true]
                  obtain ⟨dv, hdb1, hdb2, hdb3, hdb4, hdb5⟩ :=
                    taskWF_elim db (storeWF_mem s h db (get_task_mem s task_id db hget))
                  have hwf' : taskWF (applyUpdateData db now u') = true := by
                    simp only [taskNotNullOk, Bool.and_eq_true] at hnn
                    cases hu : u.title with
                    | none =>
                        refine taskWF_of _ dv ?_ hdb2 hdb3 hnn.1.2 hnn.2
                        simp only [applyUpdateData]
                        rw [ht, hu]
                        simpa using hdb1
                    | some vo =>
                        cases vo with
                        | none =>
                            exfalso
                            have : (applyUpdateData db now u').title = none := by
                              simp only [applyUpdateData]
                              rw [ht, hu]
                              rfl
                            rw [this] at hnn
                            simp at hnn
                        | some w =>
                            obtain ⟨hw1, hw2⟩ := htv w hu
                            refine taskWF_of _ (pyStrip w) ?_ hw2
                              (pyStrip_pyStrip_ne_empty _ hw2) hnn.1.2 hnn.2
                            simp only [applyUpdateData]
                            rw [ht, hu]
                            rfl
                  simp only [storeWF, List.all_eq_true]
                  intro x hx
                  obtain ⟨a, ha, hax⟩ := List.mem_map.mp hx
                  by_cases hc : a.id == task_id
                  · rw [if_pos hc] at hax
                    rw [← hax]
                    exact hwf'
                  · rw [if_neg hc] at hax
                    rw [← hax]
                    exact storeWF_mem s h a ha
                · simp only [hnn, Bool.false_eq_true, if_false]
                  exact h
  | deleteOp task_id =>
      simp only [applyOp]
      unfold delete_task
      cases hget : get_task s task_id with
      | none => exact h
      | some db =>
          simp only [storeWF, List.all_eq_true] at h ⊢
          intro x hx
          exact h x (List.mem_of_mem_filter hx)

/-! Concrete fixtures used by the witnesses and counterexamples. -/

/-- A persisted row, as produced by a successful create. -/
def t1 : Task :=
  { id := 1
    title := some "Buy milk"
    description := none
    status := some .pending
    priority := some .high
    created_at := 0
    updated_at := none
    due_date := none
    assigned_to := none }

/-- A store holding the single task `t1`. -/
def s1 : Store := { tasks := [t1], next_id := 2 }

/-- The empty store of a fresh database. -/
def s0 : Store := {}

/-- An update payload supplying only `status := completed`. -/
def uStatusDone : TaskUpdate := { status := some (some .completed) }

/-- An update payload supplying no fields at all. -/
def uEmpty : TaskUpdate := {}

/-- An update payload supplying an explicit `null` title. -/
def uNullTitle : TaskUpdate := { title := some none }

/-- An update payload supplying a whitespace-only title. -/
def uWsTitle : TaskUpdate := { title := some (some "  ") }

/-- A creation payload with title needing trimming and an explicit priority. -/
def iMilk : TaskCreateInput := { title := "  Buy milk  ", priority := some .high }

/-- A creation payload with a whitespace-only title. -/
def iWs : TaskCreateInput := { title := "   " }

/-- A creation payload whose due date (5) is in the past for clock 10. -/
def iPast : TaskCreateInput := { title := "Pay rent", due_date := some 5 }

/-- A creation payload whose due date (25) is in the future for clock 10. -/
def iFuture : TaskCreateInput := { title := "Pay rent", due_date := some 25 }

/-- An update payload supplying a past due date (3) for clock 10. -/
def uPastDue : TaskUpdate := { due_date := some (some 3) }

/-- An update payload supplying an explicit null due date. -/
def uNullDue : TaskUpdate := { due_date := some none }

/-- A creation payload that supplies neither status nor priority. -/
def iMilkDefaults : TaskCreateInput := { title := "  Buy milk  " }

/-- The validated form of `iMilkDefaults`: trimmed title and defaults. -/
def cMilk : TaskCreate :=
  { title := "Buy milk", description := none, status := .pending,
    priority := .medium, due_date := none, assigned_to := none }

/-! Claim theorems. -/

/-- Claim C1: from any store state whose persisted rows all satisfy the
invariant (title present, non-empty and not whitespace-only after trimming;
status and priority hold enumerated values), every sequence of
create/update/delete operations — with payloads subject to pydantic
validation, and commits subject to the NOT NULL schema — preserves the
invariant; in particular every update that succeeds preserves it. -/
theorem persisted_tasks_invariant (s : Store) (ops : List Op) (h : storeWF s = true) :
    storeWF (runOps s ops) = true := by
  induction ops generalizing s with
  | nil => exact h
  | cons op rest ih => exact ih _ (applyOp_WF s op h)

theorem persisted_tasks_invariant_witness :
    storeWF s1 = true ∧
    storeWF (runOps s1
      [Op.createOp 1 iMilk, Op.updateOp 3 1 uStatusDone,
       Op.updateOp 4 2 uNullTitle, Op.deleteOp 1]) = true :=
  ⟨by decide, persisted_tasks_invariant s1 _ (by decide)⟩

/-- Claim C2: an update whose partial input supplies no fields returns the
stored entity with every field unchanged — `updated_at` is not set — and
does not re-persist: the store comes back untouched. -/
theorem update_empty_input_frame (s : Store) (now task_id : Nat) (t : Task)
    (u : TaskUpdate) (hget : get_task s task_id = some t)
    (hemp : u.isEmptyData = true) :
    update_task s now task_id u = (.ok (some t), s) := by
  unfold update_task
  rw [hget]
  simp [hemp]

theorem update_empty_input_frame_witness :
    update_task s1 7 1 uEmpty = (.ok (some t1), s1) :=
  update_empty_input_frame s1 7 1 t1 uEmpty rfl rfl

/-- Claim C4: for an id that is not in the store, `get_task` returns the
absence marker, `update_task` returns absence, `delete_task` returns
failure, none of them changes the store, and the route handlers translate
each absence into a 404 response. -/
theorem missing_id_spec (s : Store) (now task_id : Nat) (u : TaskUpdate)
    (h : get_task s task_id = none) :
    update_task s now task_id u = (.ok none, s) ∧
    delete_task s task_id = (false, s) ∧
    api.read_task s task_id = .httpError 404 "Task not found" ∧
    api.update_task s now task_id u = (.httpError 404 "Task not found", s) ∧
    api.delete_task s task_id = (.httpError 404 "Task not found", s) := by
  have h1 : update_task s now task_id u = (.ok none, s) := by
    unfold update_task
    rw [h]
  have h2 : delete_task s task_id = (false, s) := by
    unfold delete_task
    rw [h]
  refine ⟨h1, h2, ?_, ?_, ?_⟩
  · unfold api.read_task
    rw [h]
  · unfold api.update_task
    rw [h1]
  · unfold api.delete_task
    rw [h2]

theorem missing_id_spec_witness :
    update_task s0 3 42 uStatusDone = (.ok none, s0) ∧
    delete_task s0 42 = (false, s0) ∧
    api.read_task s0 42 = .httpError 404 "Task not found" ∧
    api.update_task s0 3 42 uStatusDone = (.httpError 404 "Task not found", s0) ∧
    api.delete_task s0 42 = (.httpError 404 "Task not found", s0) :=
  missing_id_spec s0 3 42 uStatusDone rfl

/-- Claim C5: the total returned by the list operation is the number of
stored rows matching the status/priority filters, independent of `skip` and
`limit`; the returned page is the matching rows after dropping `skip` and
taking at most `limit` of them, so it has at most `limit` entries and draws
only from the matching set. -/
theorem get_tasks_spec (s : Store) (skip limit skip' limit' : Nat)
    (st : Option TaskStatus) (pr : Option TaskPriority) :
    (get_tasks s skip limit st pr).2 = (s.tasks.filter (matchesFilters st pr)).length ∧
    (get_tasks s skip limit st pr).2 = (get_tasks s skip' limit' st pr).2 ∧
    (get_tasks s skip limit st pr).1 =
      ((s.tasks.filter (matchesFilters st pr)).drop skip).take limit ∧
    (get_tasks s skip limit st pr).1.length ≤ limit ∧
    ∀ t ∈ (get_tasks s skip limit st pr).1,
      t ∈ s.tasks ∧ matchesFilters st pr t = true := by
  refine ⟨rfl, rfl, rfl, ?_, ?_⟩
  · exact List.length_take_le limit
      ((s.tasks.filter (matchesFilters st pr)).drop skip)
  · intro t htmem
    have h1 : t ∈ s.tasks.filter (matchesFilters st pr) :=
      List.mem_of_mem_drop (List.mem_of_mem_take htmem)
    exact ⟨List.mem_of_mem_filter h1, (List.mem_filter.mp h1).2⟩

/-- Counterexample to claim C3 as stated: the payload supplying an explicit
null title is non-empty and passes validation, the id exists, yet the update
does not set `updated_at = now` and does not persist anything — the commit
fails the NOT NULL constraint on `title` and the store is unchanged. -/
theorem update_frame_counterexample :
    uNullTitle.isEmptyData = false ∧
    validateUpdate 9 uNullTitle = .ok uNullTitle ∧
    get_task s1 1 = some t1 ∧
    update_task s1 9 1 uNullTitle =
      (.error "IntegrityError: NOT NULL constraint failed", s1) ∧
    (get_task (update_task s1 9 1 uNullTitle).2 1).map Task.updated_at = some none :=
  ⟨rfl, rfl, rfl, rfl, rfl⟩

/-- Claim C3 (amended): for every existing id and every non-empty validated
partial input whose application keeps the NOT NULL columns populated (i.e.
it does not supply an explicit null for title, status or priority), the
update changes exactly the supplied fields plus `updated_at := now`, keeps
every unsupplied field at its prior value, never modifies `id` or
`created_at`, persists the new row under the same id, and leaves every
other id unchanged.  (As stated the claim is false: an explicit-null input
makes the commit raise, see the counterexample.) -/
theorem update_task_frame (s : Store) (now task_id : Nat) (t : Task) (u : TaskUpdate)
    (hget : get_task s task_id = some t) (hne : u.isEmptyData = false)
    (hnn : taskNotNullOk (applyUpdateData t now u) = true) :
    update_task s now task_id u =
      (.ok (some (applyUpdateData t now u)),
       { s with tasks := replaceTask s.tasks task_id (applyUpdateData t now u) }) ∧
    (applyUpdateData t now u).id = t.id ∧
    (applyUpdateData t now u).created_at = t.created_at ∧
    (applyUpdateData t now u).updated_at = some now ∧
    (applyUpdateData t now u).title = u.title.getD t.title ∧
    (applyUpdateData t now u).description = u.description.getD t.description ∧
    (applyUpdateData t now u).status = u.status.getD t.status ∧
    (applyUpdateData t now u).priority = u.priority.getD t.priority ∧
    (applyUpdateData t now u).due_date = u.due_date.getD t.due_date ∧
    (applyUpdateData t now u).assigned_to = u.assigned_to.getD t.assigned_to ∧
    get_task { s with tasks := replaceTask s.tasks task_id (applyUpdateData t now u) }
      task_id = some (applyUpdateData t now u) ∧
    ∀ j, j ≠ task_id →
      get_task { s with tasks := replaceTask s.tasks task_id (applyUpdateData t now u) } j =
        get_task s j := by
  have hid : (applyUpdateData t now u).id = task_id := get_task_id_eq s task_id t hget
  refine ⟨?_, rfl, rfl, rfl, rfl, rfl, rfl, rfl, rfl, rfl, ?_, ?_⟩
  · unfold update_task
    rw [hget]
    simp [hne, hnn]
  · exact find?_replaceTask_self s.tasks task_id t _ hget hid
  · intro j hj
    exact find?_replaceTask_ne s.tasks task_id j _ hid hj

theorem update_task_frame_witness :
    update_task s1 9 1 uStatusDone =
      (.ok (some (applyUpdateData t1 9 uStatusDone)),
       { s1 with tasks := replaceTask s1.tasks 1 (applyUpdateData t1 9 uStatusDone) }) ∧
    (applyUpdateData t1 9 uStatusDone).status = uStatusDone.status.getD t1.status ∧
    (applyUpdateData t1 9 uStatusDone).updated_at = some 9 ∧
    (applyUpdateData t1 9 uStatusDone).title = uStatusDone.title.getD t1.title ∧
    (applyUpdateData t1 9 uStatusDone).created_at = t1.created_at := by
  obtain ⟨h1, h2, h3, h4, h5, h6, h7, h8, h9, h10, h11, h12⟩ :=
    update_task_frame s1 9 1 t1 uStatusDone rfl rfl rfl
  exact ⟨h1, h7, h4, h5, h3⟩

/-! Success lemmas for the validators, used by the validation claims. -/

lemma TaskCreate_validate_title_succeeds (v : String) (h : pyStrip v ≠ "") :
    TaskCreate_validate_title v = .ok (pyStrip v) := by
  unfold TaskCreate_validate_title
  rw [if_neg]
  push_neg
  exact ⟨fun he => h (by rw [he]; decide), h⟩

lemma TaskCreate_validate_due_date_succeeds (now : Nat) (v : Option Nat)
    (h : ∀ d, v = some d → now < d) :
    TaskCreate_validate_due_date now v = .ok v := by
  cases v with
  | none => rfl
  | some d =>
      simp only [TaskCreate_validate_due_date]
      rw [if_neg (Nat.not_le.mpr (h d rfl))]

lemma validateCreate_eq_ok (now : Nat) (i : TaskCreateInput) (t : String) (d : Option Nat)
    (h1 : TaskCreate_validate_title i.title = .ok t)
    (h2 : TaskCreate_validate_due_date now i.due_date = .ok d) :
    validateCreate now i =
      .ok { title := t, description := i.description,
            status := i.status.getD .pending, priority := i.priority.getD .medium,
            due_date := d, assigned_to := i.assigned_to } := by
  unfold validateCreate
  rw [h1, h2]

/-- Claim C6: on create, validation fails with the title error whenever the
supplied title is empty or whitespace-only (its strip is empty), and any
validated payload carries the stripped title; on update the same rule
applies when a title value is supplied, while an unsupplied or
explicitly-null title slot is passed through unvalidated. -/
theorem title_validation_spec (now : Nat) (i : TaskCreateInput) (u : TaskUpdate) :
    (pyStrip i.title = "" →
      validateCreate now i = .error "Title cannot be empty or whitespace only") ∧
    (∀ c, validateCreate now i = .ok c →
      pyStrip i.title ≠ "" ∧ c.title = pyStrip i.title) ∧
    (∀ w, u.title = some (some w) → pyStrip w = "" →
      validateUpdate now u = .error "Title cannot be empty or whitespace only") ∧
    (∀ u', validateUpdate now u = .ok u' →
      u'.title = Option.map (Option.map pyStrip) u.title ∧
      ∀ w, u.title = some (some w) → pyStrip w ≠ "") ∧
    ((u.title = none ∨ u.title = some none) →
      validateUpdateTitleField u = .ok u.title) := by
  refine ⟨?_, ?_, ?_, ?_, ?_⟩
  · intro hws
    have ht : TaskCreate_validate_title i.title =
        .error "Title cannot be empty or whitespace only" := by
      unfold TaskCreate_validate_title
      rw [if_pos (Or.inr hws)]
    unfold validateCreate
    cases hd : TaskCreate_validate_due_date now i.due_date with
    | ok d => rw [ht]
    | error e => rw [ht]
  · intro c hc
    obtain ⟨-, h2, h3, -⟩ := validateCreate_ok now i c hc
    exact ⟨h2, h3⟩
  · intro w hw hws
    have h1 : validateUpdateTitleField u =
        .error "Title cannot be empty or whitespace only" := by
      simp only [validateUpdateTitleField, hw, TaskUpdate_validate_title]
      rw [if_pos (Or.inr hws)]
      rfl
    unfold validateUpdate
    cases hd : validateUpdateDueField now u with
    | ok d => rw [h1]
    | error e => rw [h1]
  · intro u' hu'
    obtain ⟨h1, -, -, -, -, -, h7, -⟩ := validateUpdate_ok now u u' hu'
    exact ⟨h1, fun w hw => (h7 w hw).2⟩
  · intro hcase
    cases hcase with
    | inl h => rw [h]; simp [validateUpdateTitleField, h]
    | inr h => rw [h]; simp [validateUpdateTitleField, h, TaskUpdate_validate_title, Except.map]

theorem title_validation_spec_witness :
    validateCreate 0 iWs = .error "Title cannot be empty or whitespace only" ∧
    validateUpdate 0 uWsTitle = .error "Title cannot be empty or whitespace only" ∧
    validateUpdateTitleField uNullTitle = .ok uNullTitle.title ∧
    (∃ c, validateCreate 0 iMilk = .ok c ∧ c.title = pyStrip iMilk.title) :=
  ⟨(title_validation_spec 0 iWs uEmpty).1 (by decide),
   (title_validation_spec 0 iWs uWsTitle).2.2.1 "  " rfl (by decide),
   (title_validation_spec 0 iWs uNullTitle).2.2.2.2 (Or.inr rfl),
   ⟨{ title := "Buy milk", description := none, status := .pending,
      priority := .high, due_date := none, assigned_to := none },
    rfl, ((title_validation_spec 0 iMilk uEmpty).2.1 _ rfl).2⟩⟩

/-- A supplied past-or-present due date makes the custom-validator stage of
create validation fail, whatever the title is. -/
lemma validateCreate_due_error (now : Nat) (i : TaskCreateInput) (d : Nat)
    (hd : i.due_date = some d) (hle : d ≤ now) :
    ∃ e, validateCreate now i = .error e := by
  have h2 : TaskCreate_validate_due_date now i.due_date =
      .error "Due date must be in the future" := by
    simp only [TaskCreate_validate_due_date, hd]
    rw [if_pos hle]
  unfold validateCreate
  cases ht : TaskCreate_validate_title i.title with
  | ok t =>
      refine ⟨"Due date must be in the future", ?_⟩
      rw [h2]
  | error e =>
      refine ⟨e, ?_⟩
      rw [h2]

/-- A supplied past-or-present due date makes the custom-validator stage of
update validation fail, whatever the other slots hold. -/
lemma validateUpdate_due_error (now : Nat) (u : TaskUpdate) (d : Nat)
    (hd : u.due_date = some (some d)) (hle : d ≤ now) :
    ∃ e, validateUpdate now u = .error e := by
  have h2 : validateUpdateDueField now u = .error "Due date must be in the future" := by
    simp only [validateUpdateDueField, hd, TaskUpdate_validate_due_date]
    rw [if_pos hle]
    rfl
  unfold validateUpdate
  cases ht : validateUpdateTitleField u with
  | ok t =>
      refine ⟨"Due date must be in the future", ?_⟩
      rw [h2]
  | error e =>
      refine ⟨e, ?_⟩
      rw [h2]

/-- Claim C7: the full validation pipeline rejects a supplied due date that
is not strictly after the validation-time clock, and any payload that
validates successfully carries its original due date, which is strictly in
the future whenever it was supplied; the due-date check is skipped when the
due date is absent (or explicitly null on update).  A strictly-future due
date is accepted whenever no other field is rejected, i.e. the title is
non-whitespace and the title/description/assigned_to fields are within
their `max_length` bounds (200/1000/100). -/
theorem due_date_validation_spec (now : Nat) (i : TaskCreateInput) (u : TaskUpdate) :
    (∀ d, i.due_date = some d → d ≤ now → ∃ e, validateCreateFull now i = .error e) ∧
    (∀ c, validateCreateFull now i = .ok c →
      c.due_date = i.due_date ∧ ∀ d, i.due_date = some d → now < d) ∧
    (∀ d, i.due_date = some d → now < d → pyStrip i.title ≠ "" →
      i.title.length ≤ 200 →
      (∀ w, i.description = some w → w.length ≤ 1000) →
      (∀ w, i.assigned_to = some w → w.length ≤ 100) →
      ∃ c, validateCreateFull now i = .ok c ∧ c.due_date = some d) ∧
    (∀ d, u.due_date = some (some d) → d ≤ now → ∃ e, validateUpdateFull now u = .error e) ∧
    (∀ u', validateUpdateFull now u = .ok u' →
      u'.due_date = u.due_date ∧ ∀ d, u.due_date = some (some d) → now < d) ∧
    ((u.due_date = none ∨ u.due_date = some none) →
      validateUpdateDueField now u = .ok u.due_date) := by
  refine ⟨?_, ?_, ?_, ?_, ?_, ?_⟩
  · intro d hd hle
    unfold validateCreateFull
    split
    · exact ⟨_, rfl⟩
    · split
      · exact ⟨_, rfl⟩
      · split
        · exact ⟨_, rfl⟩
        · exact validateCreate_due_error now i d hd hle
  · intro c hc
    unfold validateCreateFull at hc
    split at hc
    · exact absurd hc (by simp)
    · split at hc
      · exact absurd hc (by simp)
      · split at hc
        · exact absurd hc (by simp)
        · obtain ⟨-, -, -, -, -, -, h7, -, h9⟩ := validateCreate_ok now i c hc
          exact ⟨h7, h9⟩
  · intro d hd hlt hts hl1 hl2 hl3
    have g1 : tooLong (some i.title) 200 = false := by
      simp [tooLong, Nat.not_lt.mpr hl1]
    have g2 : tooLong i.description 1000 = false := by
      cases hde : i.description with
      | none => rfl
      | some w => simp [tooLong, Nat.not_lt.mpr (hl2 w hde)]
    have g3 : tooLong i.assigned_to 100 = false := by
      cases hat : i.assigned_to with
      | none => rfl
      | some w => simp [tooLong, Nat.not_lt.mpr (hl3 w hat)]
    unfold validateCreateFull
    rw [g1, g2, g3]
    simp only [Bool.false_eq_true, if_false]
    refine ⟨_, validateCreate_eq_ok now i (pyStrip i.title) i.due_date
      (TaskCreate_validate_title_succeeds _ hts)
      (TaskCreate_validate_due_date_succeeds now i.due_date
        (fun d' hd' => by rw [hd] at hd'; cases hd'; exact hlt)), hd⟩
  · intro d hd hle
    unfold validateUpdateFull
    split
    · exact ⟨_, rfl⟩
    · split
      · exact ⟨_, rfl⟩
      · split
        · exact ⟨_, rfl⟩
        · exact validateUpdate_due_error now u d hd hle
  · intro u' hu'
    unfold validateUpdateFull at hu'
    split at hu'
    · exact absurd hu' (by simp)
    · split at hu'
      · exact absurd hu' (by simp)
      · split at hu'
        · exact absurd hu' (by simp)
        · obtain ⟨-, -, -, -, h5, -, -, h8⟩ := validateUpdate_ok now u u' hu'
          exact ⟨h5, h8⟩
  · intro hcase
    cases hcase with
    | inl h => rw [h]; simp [validateUpdateDueField, h]
    | inr h => rw [h]; simp [validateUpdateDueField, h, TaskUpdate_validate_due_date, Except.map]

theorem due_date_validation_spec_witness :
    (∃ e, validateCreateFull 10 iPast = .error e) ∧
    (∃ c, validateCreateFull 10 iFuture = .ok c ∧ c.due_date = some 25) ∧
    (∃ e, validateUpdateFull 10 uPastDue = .error e) ∧
    validateUpdateDueField 10 uNullDue = .ok uNullDue.due_date :=
  ⟨(due_date_validation_spec 10 iPast uEmpty).1 5 rfl (by decide),
   (due_date_validation_spec 10 iFuture uEmpty).2.2.1 25 rfl (by decide) (by decide)
     (by decide) (fun w hw => by simp [iFuture] at hw)
     (fun w hw => by simp [iFuture] at hw),
   (due_date_validation_spec 10 iPast uPastDue).2.2.2.1 3 rfl (by decide),
   (due_date_validation_spec 10 iPast uNullDue).2.2.2.2.2 (Or.inr rfl)⟩

/-- Claim C8: creating from a validated payload assigns a fresh id that no
stored row uses, sets `created_at` to the creation time, leaves `updated_at`
absent, and falls back to status `pending` and priority `medium` when the
input did not supply them; the fresh-ids invariant is maintained. -/
theorem create_task_spec (s : Store) (now : Nat) (i : TaskCreateInput) (c : TaskCreate)
    (hids : ∀ t ∈ s.tasks, t.id < s.next_id)
    (hval : validateCreate now i = .ok c) :
    get_task s (create_task s now c).1.id = none ∧
    (∀ t ∈ s.tasks, t.id ≠ (create_task s now c).1.id) ∧
    (create_task s now c).1.created_at = now ∧
    (create_task s now c).1.updated_at = none ∧
    (i.status = none → (create_task s now c).1.status = some .pending) ∧
    (i.priority = none → (create_task s now c).1.priority = some .medium) ∧
    (∀ t ∈ (create_task s now c).2.tasks, t.id < (create_task s now c).2.next_id) := by
  obtain ⟨-, -, -, -, h5, h6, -, -, -⟩ := validateCreate_ok now i c hval
  have hfresh : ∀ t ∈ s.tasks, t.id ≠ s.next_id :=
    fun t ht => Nat.ne_of_lt (hids t ht)
  refine ⟨?_, hfresh, rfl, rfl, ?_, ?_, ?_⟩
  · exact List.find?_eq_none.mpr fun t ht => by simpa using hfresh t ht
  · intro hst
    show some c.status = some TaskStatus.pending
    rw [h5, hst]
    rfl
  · intro hpr
    show some c.priority = some TaskPriority.medium
    rw [h6, hpr]
    rfl
  · intro t ht
    rw [create_task] at ht
    simp only [List.mem_append, List.mem_singleton] at ht
    cases ht with
    | inl h => exact Nat.lt_succ_of_lt (hids t h)
    | inr h => rw [h]; exact Nat.lt_succ_self _

theorem create_task_spec_witness :
    get_task s1 (create_task s1 4 cMilk).1.id = none ∧
    (create_task s1 4 cMilk).1.created_at = 4 ∧
    (create_task s1 4 cMilk).1.updated_at = none ∧
    (create_task s1 4 cMilk).1.status = some .pending := by
  obtain ⟨h1, h2, h3, h4, h5, h6, h7⟩ :=
    create_task_spec s1 4 iMilkDefaults cMilk (by decide) rfl
  exact ⟨h1, h3, h4, h5 rfl⟩

/-- Claim C9: after a create from a validated payload, a get with the
assigned id returns exactly the created entity; its content fields equal the
validated input fields and its id, `created_at` and `updated_at` are the
values assigned at creation. -/
theorem create_get_roundtrip (s : Store) (now : Nat) (i : TaskCreateInput) (c : TaskCreate)
    (hids : ∀ t ∈ s.tasks, t.id < s.next_id)
    (hval : validateCreate now i = .ok c) :
    get_task (create_task s now c).2 (create_task s now c).1.id =
      some (create_task s now c).1 ∧
    (create_task s now c).1.title = some c.title ∧
    (create_task s now c).1.description = c.description ∧
    (create_task s now c).1.status = some c.status ∧
    (create_task s now c).1.priority = some c.priority ∧
    (create_task s now c).1.due_date = c.due_date ∧
    (create_task s now c).1.assigned_to = c.assigned_to ∧
    c.description = i.description ∧ c.due_date = i.due_date ∧
    c.assigned_to = i.assigned_to ∧
    (create_task s now c).1.id = s.next_id ∧
    (create_task s now c).1.created_at = now ∧
    (create_task s now c).1.updated_at = none := by
  obtain ⟨-, -, -, h4, -, -, h7, h8, -⟩ := validateCreate_ok now i c hval
  refine ⟨?_, rfl, rfl, rfl, rfl, rfl, rfl, h4, h7, h8, rfl, rfl, rfl⟩
  have hnone : s.tasks.find? (fun t => t.id == s.next_id) = none :=
    List.find?_eq_none.mpr fun t ht => by simpa using Nat.ne_of_lt (hids t ht)
  show ((s.tasks ++ [(create_task s now c).1]).find? fun t => t.id == s.next_id) =
    some (create_task s now c).1
  rw [List.find?_append, hnone]
  simp [List.find?, create_task]

theorem create_get_roundtrip_witness :
    get_task (create_task s1 4 cMilk).2 (create_task s1 4 cMilk).1.id =
      some (create_task s1 4 cMilk).1 ∧
    (create_task s1 4 cMilk).1.title = some "Buy milk" ∧
    (create_task s1 4 cMilk).1.id = 2 := by
  obtain ⟨h1, h2, -⟩ :=
    create_get_roundtrip s1 4 iMilkDefaults cMilk (by decide) rfl
  exact ⟨h1, h2, rfl⟩

/-- Counterexample to claim C10 as stated: an update supplying an explicit
null title on an existing task passes validation, but it does not set the
stored title to None — the commit fails the NOT NULL constraint, the update
raises, and the stored row keeps its old title. -/
theorem explicit_null_counterexample :
    validateUpdate 5 uNullTitle = .ok uNullTitle ∧
    get_task s1 1 = some t1 ∧
    update_task s1 5 1 uNullTitle =
      (.error "IntegrityError: NOT NULL constraint failed", s1) ∧
    (get_task (update_task s1 5 1 uNullTitle).2 1).map Task.title =
      some (some "Buy milk") :=
  ⟨rfl, rfl, rfl, rfl⟩

/-- Claim C10 (amended): an explicit null supplied for title, status or
priority passes pydantic validation (the update validators skip None) and is
applied to the loaded entity like any supplied value — the in-memory field
becomes None rather than being treated as unset — but the commit then
violates the NOT NULL constraint on that column, so `update_task` raises an
integrity error and the stored row is unchanged: the persisted field is not
set to None. -/
theorem explicit_null_update_spec (s : Store) (now task_id : Nat) (t : Task)
    (u : TaskUpdate) (hget : get_task s task_id = some t)
    (hnull : u.title = some none ∨ u.status = some none ∨ u.priority = some none) :
    (u.title = some none →
      validateUpdateTitleField u = .ok u.title ∧
      (applyUpdateData t now u).title = none) ∧
    (u.status = some none → (applyUpdateData t now u).status = none) ∧
    (u.priority = some none → (applyUpdateData t now u).priority = none) ∧
    update_task s now task_id u =
      (.error "IntegrityError: NOT NULL constraint failed", s) := by
  refine ⟨?_, ?_, ?_, ?_⟩
  · intro h
    refine ⟨?_, ?_⟩
    · rw [h]
      simp [validateUpdateTitleField, h, TaskUpdate_validate_title, Except.map]
    · simp [applyUpdateData, h]
  · intro h
    simp [applyUpdateData, h]
  · intro h
    simp [applyUpdateData, h]
  · have hemp : u.isEmptyData = false := by
      cases hnull with
      | inl h => simp [TaskUpdate.isEmptyData, h]
      | inr h =>
          cases h with
          | inl h => simp [TaskUpdate.isEmptyData, h]
          | inr h => simp [TaskUpdate.isEmptyData, h]
    have hnn : taskNotNullOk (applyUpdateData t now u) = false := by
      cases hnull with
      | inl h => simp [taskNotNullOk, applyUpdateData, h]
      | inr h =>
          cases h with
          | inl h => simp [taskNotNullOk, applyUpdateData, h]
          | inr h => simp [taskNotNullOk, applyUpdateData, h]
    unfold update_task
    rw [hget]
    simp [hemp, hnn]

theorem explicit_null_update_spec_witness :
    validateUpdateTitleField uNullTitle = .ok uNullTitle.title ∧
    (applyUpdateData t1 5 uNullTitle).title = none ∧
    update_task s1 5 1 uNullTitle =
      (.error "IntegrityError: NOT NULL constraint failed", s1) := by
  obtain ⟨h1, -, -, h4⟩ :=
    explicit_null_update_spec s1 5 1 t1 uNullTitle rfl (Or.inl rfl)
  exact ⟨(h1 rfl).1, (h1 rfl).2, h4⟩

end TaskManager
